import Mathlib

/-!
Verification of the intervals-icu gateway core against its natural-language
specification.  The definitions below are a shallow embedding of the
TypeScript sources: the MCP route handler (request executor, download
adapter, access gate, create_event tool) and the webhook route handler
(webhook gate, payload normalization, action dispatch).
-/

set_option maxHeartbeats 1000000

namespace IntervalsIcu

/-! ## JavaScript value model

JSON values as they flow through the webhook handler.  `jnan` is not a JSON
literal; it represents the NaN result of a JS Number() coercion.  Numbers are
modelled as integers (every numeric literal exercised by the handlers is an
integer). -/

inductive JVal where
  | jnull : JVal
  | jnan : JVal
  | jbool : Bool → JVal
  | jnum : Int → JVal
  | jstr : String → JVal
  | jarr : List JVal → JVal
  | jobj : List (String × JVal) → JVal
deriving Repr

/-- Property lookup on a JS object (field lists have unique keys, first match). -/
def getField : List (String × JVal) → String → Option JVal
  | [], _ => none
  | (k, v) :: rest, key => if k = key then some v else getField rest key

/-- JS null-coalescing `a ?? b` over optional JSON values
(`none` plays the role of `undefined`). -/
def jsCoalesce (a b : Option JVal) : Option JVal :=
  match a with
  | none => b
  | some .jnull => b
  | some v => some v

/-- JS `x != null` filter: keeps a value only when it is neither absent nor null. -/
def nonNull : Option JVal → Option JVal
  | none => none
  | some .jnull => none
  | some v => some v

/-- JS truthiness of a value. -/
def jsTruthy : JVal → Bool
  | .jnull => false
  | .jnan => false
  | .jbool b => b
  | .jnum n => n != 0
  | .jstr s => s != ""
  | .jarr _ => true
  | .jobj _ => true

/-- JS truthiness of a possibly-undefined value. -/
def jsTruthyOpt : Option JVal → Bool
  | none => false
  | some v => jsTruthy v

mutual
/-- JS String() conversion, and the comma join used by Array.prototype.toString
(null elements render as empty strings). -/
def jsToStrCore : JVal → String
  | .jnull => "null"
  | .jnan => "NaN"
  | .jbool b => cond b "true" "false"
  | .jnum n => toString n
  | .jstr s => s
  | .jarr xs => jsArrJoin xs
  | .jobj _ => "[object Object]"

/-- Comma join of Array.prototype.toString (null elements render empty). -/
def jsArrJoin : List JVal → String
  | [] => ""
  | [.jnull] => ""
  | [v] => jsToStrCore v
  | .jnull :: rest => "," ++ jsArrJoin rest
  | v :: rest => jsToStrCore v ++ "," ++ jsArrJoin rest
end

/-- Digit run parsed as a natural number (decimal). -/
def parseNatDigits (cs : List Char) : Option Nat :=
  if cs = [] then none
  else if cs.all Char.isDigit then
    some (cs.foldl (fun a c => a * 10 + (c.toNat - 48)) 0)
  else none

/-- Signed decimal integer parse (the integer fragment of the JS numeric grammar,
which is the only fragment these handlers exercise). -/
def parseSignedInt (s : String) : Option Int :=
  match s.toList with
  | '-' :: rest => (parseNatDigits rest).map (fun n => -(n : Int))
  | '+' :: rest => (parseNatDigits rest).map (fun n => (n : Int))
  | l => (parseNatDigits l).map (fun n => (n : Int))

/-- JS trim on character lists (drop whitespace from both ends). -/
def trimChars (cs : List Char) : List Char :=
  ((cs.dropWhile Char.isWhitespace).reverse.dropWhile Char.isWhitespace).reverse

/-- JS String.prototype.trim. -/
def jsTrim (s : String) : String := String.mk (trimChars s.toList)

/-- JS ToNumber on a string: trimmed empty is 0, a signed decimal integer is
itself, anything else is NaN. -/
def jsStrToNumber (s : String) : JVal :=
  let t := jsTrim s
  if t = "" then .jnum 0
  else
    match parseSignedInt t with
    | some n => .jnum n
    | none => .jnan

/-- JS Number() coercion (arrays convert through their string form, plain
objects convert through the opaque object string and are NaN). -/
def jsToNumber : JVal → JVal
  | .jnull => .jnum 0
  | .jnan => .jnan
  | .jbool b => .jnum (cond b 1 0)
  | .jnum n => .jnum n
  | .jstr s => jsStrToNumber s
  | .jarr xs => jsStrToNumber (jsArrJoin xs)
  | .jobj _ => .jnan

/-- JS `a || b` over optional environment strings (empty string is falsy). -/
def jsOrStr (a b : Option String) : Option String :=
  match a with
  | some s => if s = "" then b else some s
  | none => b

/-- JS truthiness of an optional environment string. -/
def envTruthy : Option String → Bool
  | none => false
  | some s => s != ""

/-- JS String.prototype.startsWith. -/
def jsStartsWith (s pre : String) : Bool := pre.toList.isPrefixOf s.toList

/-- JS String.prototype.slice with a single non-negative index. -/
def jsDrop (s : String) (n : Nat) : String := String.mk (s.toList.drop n)

/-- ASCII lowercasing of one character. -/
def asciiLower (c : Char) : Char :=
  if 'A' ≤ c ∧ c ≤ 'Z' then Char.ofNat (c.toNat + 32) else c

/-- JS String.prototype.toLowerCase (the handlers only meet ASCII actions). -/
def jsToLower (s : String) : String := String.mk (s.toList.map asciiLower)

/-- JS String.prototype.includes restricted to what the executor needs. -/
def strIncludes (s sub : String) : Bool :=
  (List.range (s.toList.length + 1)).any
    (fun i => sub.toList.isPrefixOf (s.toList.drop i))

/-! ## Date-shape matchers (the two regexes of the sources) -/

/-- Shape of the regex `^\d{4}-\d{2}-\d{2}$`. -/
def dateShape : List Char → Bool
  | [a, b, c, d, '-', e, f, '-', g, h] =>
    a.isDigit && b.isDigit && c.isDigit && d.isDigit &&
    e.isDigit && f.isDigit && g.isDigit && h.isDigit
  | _ => false

/-- Shape of the regex `^\d{4}-\d{2}-\d{2}T` (prefix match). -/
def dateTShape : List Char → Bool
  | a :: b :: c :: d :: '-' :: e :: f :: '-' :: g :: h :: 'T' :: _ =>
    a.isDigit && b.isDigit && c.isDigit && d.isDigit &&
    e.isDigit && f.isDigit && g.isDigit && h.isDigit
  | _ => false

/-- Test of `^\d{4}-\d{2}-\d{2}$` on a string. -/
def matchesFullDate (s : String) : Bool := dateShape s.toList

/-- Test of `^\d{4}-\d{2}-\d{2}T` on a string. -/
def matchesDateTPrefix (s : String) : Bool := dateTShape s.toList

/-! ## Authenticated request executor (route.ts, intervalsApi) -/

/-- One upstream fetch response: HTTP status, content-type header, body text. -/
structure FetchResponse where
  status : Nat
  contentType : Option String
  bodyText : String
deriving Repr, DecidableEq

/-- Decoded success result of the executor. -/
inductive ApiResult where
  | emptyDoc : ApiResult
  | csvText : String → ApiResult
  | jsonDoc : String → ApiResult
deriving Repr, DecidableEq

/-- Terminal outcome of one executor invocation. -/
inductive ApiOutcome where
  | ok : ApiResult → ApiOutcome
  | upstreamError : Nat → String → ApiOutcome
  | retryExhausted : String → ApiOutcome
deriving Repr, DecidableEq

/-- Observable trace of one executor invocation: outcome, number of outbound
calls, and the backoff sleeps (in milliseconds) taken after 429 responses. -/
structure ApiTrace where
  outcome : ApiOutcome
  calls : Nat
  sleepsMs : List Nat
deriving Repr, DecidableEq

/-- fetch Response.ok: status in 200..299. -/
def responseOk (status : Nat) : Bool := 200 ≤ status && status < 300

/-- Does the content-type header contain text/csv (absent header is falsy)? -/
def ctIncludesCsv : Option String → Bool
  | some ct => strIncludes ct "text/csv"
  | none => false

/-- Decoding of a 2xx response: 204 is empty, a csv content type is raw text,
anything else is parsed as JSON. -/
def decodeSuccess (r : FetchResponse) : ApiResult :=
  if r.status = 204 then .emptyDoc
  else if ctIncludesCsv r.contentType then .csvText r.bodyText
  else .jsonDoc r.bodyText

/-- The retry loop of intervalsApi: `fetchAt a` is the upstream response to the
call made at attempt index `a`; `fuel` counts the remaining iterations of
`for (let attempt = 0; attempt < 3; attempt++)`.  A 429 sleeps
`2^attempt * 1000` ms and retries; any other non-2xx fails immediately. -/
def intervalsApiLoop (path : String) (fetchAt : Nat → FetchResponse) :
    Nat → Nat → ApiTrace
  | _, 0 => ⟨.retryExhausted path, 0, []⟩
  | attempt, fuel + 1 =>
    let r := fetchAt attempt
    if r.status = 429 then
      let t := intervalsApiLoop path fetchAt (attempt + 1) fuel
      ⟨t.outcome, t.calls + 1, 2 ^ attempt * 1000 :: t.sleepsMs⟩
    else if responseOk r.status = false then
      ⟨.upstreamError r.status r.bodyText, 1, []⟩
    else
      ⟨.ok (decodeSuccess r), 1, []⟩

/-- The executor intervalsApi: up to 3 attempts indexed 0,1,2. -/
def intervalsApi (path : String) (fetchAt : Nat → FetchResponse) : ApiTrace :=
  intervalsApiLoop path fetchAt 0 3

/-! ## Binary download adapter (route.ts, intervalsApiDownload) -/

/-- Upstream response seen by the download adapter: status, content-type
header, raw body bytes (for the success path) and body text (for the error
path). -/
structure DownloadResponse where
  status : Nat
  contentTypeHeader : Option String
  bytes : List Nat
  errText : String
deriving Repr, DecidableEq

/-- Terminal outcome of the download adapter. -/
inductive DownloadOutcome where
  | file : String → String → DownloadOutcome
  | upstreamError : Nat → String → DownloadOutcome
deriving Repr, DecidableEq

/-- The base64 alphabet. -/
def base64Chars : List Char :=
  "ABCDEFGHIJKLMNOPQRSTUVWXYZabcdefghijklmnopqrstuvwxyz0123456789+/".toList

/-- One base64 digit. -/
def b64digit (n : Nat) : Char := base64Chars.getD n '='

/-- Standard base64 encoding of a byte list (Buffer.toString base64). -/
def base64Encode : List Nat → String
  | [] => ""
  | [a] =>
    String.mk [b64digit (a / 4), b64digit (a % 4 * 16), '=', '=']
  | [a, b] =>
    String.mk [b64digit (a / 4), b64digit (a % 4 * 16 + b / 16),
      b64digit (b % 16 * 4), '=']
  | a :: b :: c :: rest =>
    String.mk [b64digit (a / 4), b64digit (a % 4 * 16 + b / 16),
      b64digit (b % 16 * 4 + c / 64), b64digit (c % 64)] ++ base64Encode rest

/-- The download adapter: one outbound GET (the second component lists the
requested URLs), no retry handling of any kind; non-2xx fails with the status
and body text; success returns the base64 body and the content type,
defaulting an absent or empty content-type header to application/octet-stream. -/
def intervalsApiDownload (baseUrl path : String) (resp : DownloadResponse) :
    DownloadOutcome × List String :=
  let url := baseUrl ++ path
  if responseOk resp.status = false then
    (.upstreamError resp.status resp.errText, [url])
  else
    (.file (base64Encode resp.bytes)
      (match resp.contentTypeHeader with
        | some ct => if ct = "" then "application/octet-stream" else ct
        | none => "application/octet-stream"), [url])

/-! ## MCP access gate (route.ts, getMcpKeyFromRequest / requireMcpApiKey) -/

/-- The headers of an inbound MCP request that the gate inspects. -/
structure McpRequest where
  authorization : Option String
  xMcpApiKey : Option String
deriving Repr, DecidableEq

/-- Key extraction: a Bearer authorization header wins (its value is trimmed);
otherwise the X-MCP-API-Key header, trimmed, or null. -/
def getMcpKeyFromRequest (req : McpRequest) : Option String :=
  match req.authorization with
  | some a =>
    if jsStartsWith a "Bearer " then some (jsTrim (jsDrop a 7))
    else req.xMcpApiKey.map jsTrim
  | none => req.xMcpApiKey.map jsTrim

/-- Gate verdict: proceed invokes the MCP handler (and hence any upstream
call); unauthorized is a 401 response returned before the handler runs. -/
inductive GateOutcome where
  | proceed : GateOutcome
  | unauthorized : GateOutcome
deriving Repr, DecidableEq

/-- The MCP gate: with no (or an empty) MCP_API_KEY every request proceeds;
otherwise the extracted key must be present, truthy and exactly equal. -/
def requireMcpApiKey (mcpApiKey : Option String) (req : McpRequest) : GateOutcome :=
  match mcpApiKey with
  | none => .proceed
  | some expected =>
    if expected = "" then .proceed
    else
      match getMcpKeyFromRequest req with
      | none => .unauthorized
      | some sent => if sent = "" ∨ sent ≠ expected then .unauthorized else .proceed

/-! ## MCP create_event tool payload (route.ts, create_event handler) -/

/-- The create_event normalization of start_date_local: append T00:00:00
unless the string already matches yyyy-MM-ddT as a prefix. -/
def mcpNormalizeStartDate (s : String) : String :=
  if matchesDateTPrefix s then s else s ++ "T00:00:00"

/-- The declared inputs of the create_event tool (optionals absent = undefined). -/
structure CreateEventArgs where
  start_date_local : String
  type : Option String
  category : Option String
  name : Option String
  description : Option String
  workout_id : Option String
  duration : Option Int
  distance : Option Int
deriving Repr, DecidableEq

/-- A payload field added under `if (x) payload.k = x` for a string input:
present only when the input is defined and non-empty. -/
def truthyStrField (k : String) (o : Option String) : List (String × JVal) :=
  match o with
  | some s => if s = "" then [] else [(k, .jstr s)]
  | none => []

/-- The moving_time field added under `if (duration != null)`: present
whenever the duration input is defined, zero included. -/
def durationField (o : Option Int) : List (String × JVal) :=
  match o with
  | some d => [("moving_time", JVal.jnum d)]
  | none => []

/-- The distance field added under `if (distance)`: present only when the
distance input is defined and non-zero. -/
def distanceField (o : Option Int) : List (String × JVal) :=
  match o with
  | some d => if d = 0 then [] else [("distance", JVal.jnum d)]
  | none => []

/-- The upstream payload built by the create_event tool: start_date_local
always (normalized); type, category, name, description, workout_id each under
a truthiness guard; duration whenever defined (renamed moving_time); distance
under a truthiness guard. -/
def createEventPayload (a : CreateEventArgs) : List (String × JVal) :=
  [("start_date_local", JVal.jstr (mcpNormalizeStartDate a.start_date_local))]
  ++ truthyStrField "type" a.type
  ++ truthyStrField "category" a.category
  ++ truthyStrField "name" a.name
  ++ truthyStrField "description" a.description
  ++ truthyStrField "workout_id" a.workout_id
  ++ durationField a.duration
  ++ distanceField a.distance

/-! ## Webhook route (part_000): gate, payload normalization, action dispatch -/

/-- The parts of an inbound webhook request the handler inspects.  The body is
the JSON value obtained by the parse stage (the parse branches themselves
return 400 on malformed input and are outside the scope of the claims). -/
structure WebhookRequest where
  authorization : Option String
  xWebhookSecret : Option String
  body : JVal

/-- The webhook gate: secret is WEBHOOK_SECRET falling back to MCP_API_KEY
(JS or, so an empty string falls through); no truthy secret allows everything;
a Bearer authorization header compares its trimmed value; otherwise the
X-Webhook-Secret header compares untrimmed. -/
def checkWebhookAuth (webhookSecret mcpApiKey : Option String)
    (req : WebhookRequest) : Bool :=
  match jsOrStr webhookSecret mcpApiKey with
  | none => true
  | some s =>
    if s = "" then true
    else
      match req.authorization with
      | some a =>
        if jsStartsWith a "Bearer " then jsTrim (jsDrop a 7) == s
        else req.xWebhookSecret == some s
      | none => req.xWebhookSecret == some s

/-- The webhook normalization of a start date value: non-strings are invalid;
the string is trimmed; empty is invalid; a yyyy-MM-ddT prefix passes through;
a bare yyyy-MM-dd gains T00:00:00; anything else passes through as-is. -/
def normalizeStartDate : Option JVal → Option String
  | some (.jstr v) =>
    let s := jsTrim v
    if s = "" then none
    else if matchesDateTPrefix s then some s
    else if matchesFullDate s then some (s ++ "T00:00:00")
    else some s
  | _ => none

/-- A payload field that is present exactly when its computed value is. -/
def optField (k : String) : Option JVal → List (String × JVal)
  | some v => [(k, v)]
  | none => []

/-- The allow-listed create payload (buildEventPayload): requires a
normalizable start date (accepting start_date_local or startDate), then copies
the allow-listed fields under `!= null` guards with the declared coercions;
moving_time is the first non-null of moving_time, movingTime, duration,
coerced with Number; workout_doc is copied only when it is a plain object. -/
def buildEventPayload (raw : List (String × JVal)) :
    Except String (List (String × JVal)) :=
  match normalizeStartDate
      (jsCoalesce (getField raw "start_date_local") (getField raw "startDate")) with
  | none =>
    .error "Missing or invalid start_date_local (use yyyy-MM-dd or yyyy-MM-ddT00:00:00)"
  | some start =>
    .ok (
      [("start_date_local", JVal.jstr start)]
      ++ optField "name"
        ((nonNull (getField raw "name")).map (fun v => .jstr (jsToStrCore v)))
      ++ optField "description"
        ((nonNull (getField raw "description")).map (fun v => .jstr (jsToStrCore v)))
      ++ optField "type"
        ((nonNull (getField raw "type")).map (fun v => .jstr (jsToStrCore v)))
      ++ optField "category"
        ((nonNull (getField raw "category")).map (fun v => .jstr (jsToStrCore v)))
      ++ optField "indoor"
        ((nonNull (getField raw "indoor")).map (fun v => .jbool (jsTruthy v)))
      ++ optField "calendar_id"
        ((nonNull (getField raw "calendar_id")).map jsToNumber)
      ++ optField "distance"
        ((nonNull (getField raw "distance")).map jsToNumber)
      ++ optField "color"
        ((nonNull (getField raw "color")).map (fun v => .jstr (jsToStrCore v)))
      ++ optField "moving_time"
        ((nonNull (jsCoalesce (getField raw "moving_time")
          (jsCoalesce (getField raw "movingTime") (getField raw "duration")))).map jsToNumber)
      ++ optField "workout_doc"
        (match getField raw "workout_doc" with
          | some (.jobj fs) => some (.jobj fs)
          | _ => none))

/-- One outbound call the webhook makes against the upstream API.  The body is
the value handed to JSON.stringify, kept structured; none is an omitted body. -/
structure UpstreamCall where
  url : String
  method : String
  body : Option JVal

/-- Upstream reply as the webhook consumes it: status, body text (read on the
error path), and the parsed JSON body (read on the success path). -/
structure UpstreamReply where
  status : Nat
  text : String
  jsonBody : JVal

/-- The HTTP reply of the webhook route. -/
structure WebhookReply where
  status : Nat
  body : JVal

/-- Non-2xx upstream statuses map to 502 for upstream 5xx, else 400. -/
def webhookErrStatus (s : Nat) : Nat := if 500 ≤ s then 502 else 400

/-- The gateway error reply carrying the upstream status and raw error body. -/
def webhookUpstreamErrReply (status : Nat) (text : String) : WebhookReply :=
  ⟨webhookErrStatus status,
    .jobj [("error", .jstr "Intervals.icu API error"),
      ("status", .jnum status), ("detail", .jstr text)]⟩

/-- The catch-all 500 reply of the webhook route. -/
def webhook500 (detail : String) : WebhookReply :=
  ⟨500, .jobj [("error", .jstr "Webhook failed"), ("detail", .jstr detail)]⟩

/-- A 400 client-error reply of the webhook route. -/
def webhook400 (msg : String) : WebhookReply :=
  ⟨400, .jobj [("error", .jstr msg)]⟩

/-- The routing fields the update branch strips via destructuring. -/
def routingKeys : List String :=
  ["event_id", "eventId", "action", "_action", "athlete_id", "athleteId"]

/-- Rest-destructuring of the update branch: every non-routing field survives. -/
def stripRouting (fs : List (String × JVal)) : List (String × JVal) :=
  fs.filter (fun kv => !(routingKeys.contains kv.1))

/-- The delete branch: one DELETE with no body. -/
def webhookDelete (baseUrlEvents : String) (eid : JVal)
    (upstream : UpstreamCall → UpstreamReply) : WebhookReply × List UpstreamCall :=
  let call : UpstreamCall := ⟨baseUrlEvents ++ "/" ++ jsToStrCore eid, "DELETE", none⟩
  let reply := upstream call
  if responseOk reply.status then
    (⟨200, .jobj [("ok", .jbool true), ("action", .jstr "delete"), ("event_id", eid)]⟩,
      [call])
  else
    (webhookUpstreamErrReply reply.status reply.text, [call])

/-- The update branch: one PUT whose body is the input minus the routing
fields; an empty remainder is still sent as an empty object. -/
def webhookUpdate (baseUrlEvents : String) (eid : JVal)
    (fields : List (String × JVal)) (upstream : UpstreamCall → UpstreamReply) :
    WebhookReply × List UpstreamCall :=
  let updateBody := stripRouting fields
  let payload := if updateBody.length ≠ 0 then updateBody else []
  let call : UpstreamCall := ⟨baseUrlEvents ++ "/" ++ jsToStrCore eid, "PUT",
    some (.jobj payload)⟩
  let reply := upstream call
  if responseOk reply.status then
    (⟨200, .jobj [("ok", .jbool true), ("action", .jstr "update"),
      ("event", reply.jsonBody)]⟩, [call])
  else
    (webhookUpstreamErrReply reply.status reply.text, [call])

/-- The create branch: build the allow-listed payload (a build failure is a
thrown Error reaching the catch-all, hence a 500 with no call made), then one
POST. -/
def webhookCreate (baseUrlEvents : String) (fields : List (String × JVal))
    (upstream : UpstreamCall → UpstreamReply) : WebhookReply × List UpstreamCall :=
  match buildEventPayload fields with
  | .error msg => (webhook500 msg, [])
  | .ok payload =>
    let call : UpstreamCall := ⟨baseUrlEvents, "POST", some (.jobj payload)⟩
    let reply := upstream call
    if responseOk reply.status then
      (⟨200, .jobj [("ok", .jbool true), ("action", .jstr "create"),
        ("event", reply.jsonBody)]⟩, [call])
    else
      (webhookUpstreamErrReply reply.status reply.text, [call])

/-- Classification and dispatch once the action string is in hand: lowercase
it, resolve athlete and event ids with their two accepted spellings, then run
the delete, update, or (default) create branch. -/
def webhookDispatch (actRaw : String) (baseUrl : String)
    (fields : List (String × JVal)) (upstream : UpstreamCall → UpstreamReply) :
    WebhookReply × List UpstreamCall :=
  let action := jsToLower actRaw
  let athleteVal := (jsCoalesce (getField fields "athlete_id")
    (jsCoalesce (getField fields "athleteId") (some (.jstr "0")))).getD (.jstr "0")
  let eventIdOpt := jsCoalesce (getField fields "event_id") (getField fields "eventId")
  let baseUrlEvents := baseUrl ++ "/athlete/" ++ jsToStrCore athleteVal ++ "/events"
  if action = "delete" then
    if jsTruthyOpt eventIdOpt = false then
      (webhook400 "Missing event_id for action delete", [])
    else
      webhookDelete baseUrlEvents (eventIdOpt.getD .jnull) upstream
  else if action = "update" then
    if jsTruthyOpt eventIdOpt = false then
      (webhook400 "Missing event_id for action update", [])
    else
      webhookUpdate baseUrlEvents (eventIdOpt.getD .jnull) fields upstream
  else
    webhookCreate baseUrlEvents fields upstream

/-- The webhook POST handler from the parsed body on: gate first (401 with no
call on rejection), reject non-object bodies with 400, read the action (a
non-string action crashes toLowerCase and lands in the catch-all 500), resolve
configuration (a missing or empty INTERVALS_ICU_API_KEY throws, landing in the
catch-all 500), then dispatch. -/
def webhookPOST (apiKey baseUrlEnv webhookSecret mcpApiKey : Option String)
    (req : WebhookRequest) (upstream : UpstreamCall → UpstreamReply) :
    WebhookReply × List UpstreamCall :=
  if checkWebhookAuth webhookSecret mcpApiKey req = false then
    (⟨401, .jobj [("error", .jstr "Unauthorized"),
      ("hint", .jstr "Set WEBHOOK_SECRET or MCP_API_KEY and send it as a Bearer authorization or X-Webhook-Secret")]⟩, [])
  else
    match req.body with
    | .jobj fields =>
      match jsCoalesce (getField fields "action")
          (jsCoalesce (getField fields "_action") (some (.jstr "create"))) with
      | some (.jstr actRaw) =>
        match apiKey with
        | none => (webhook500 "Missing INTERVALS_ICU_API_KEY", [])
        | some key =>
          if key = "" then (webhook500 "Missing INTERVALS_ICU_API_KEY", [])
          else
            webhookDispatch actRaw
              ((jsOrStr baseUrlEnv (some "https://intervals.icu/api/v1")).getD "")
              fields upstream
      | _ => (webhook500 "toLowerCase is not a function", [])
    | _ => (webhook400 "Body must be a JSON object", [])

/-! ## Activities-with-details pipeline (spec-modelled)

Modelled from the spec: the fetch_activities_with_details tool is declared in
the README table but its implementation is not among the provided sources.
Per the spec it first lists activity summaries for the range (one call), then
issues one detail call per summary up to a cap of 20 per invocation; summaries
beyond the cap are simply omitted, not queued. -/

/-- Observable trace of one pipeline invocation. -/
structure PipelineTrace (β : Type) where
  summaryCalls : Nat
  detailCalls : Nat
  results : List β

/-- Modelled from the spec: the detail fan-out loop with a remaining-budget
counter; returns the fetched details and the number of detail calls made. -/
def detailLoop {α β : Type} (detail : α → β) : List α → Nat → List β × Nat
  | [], _ => ([], 0)
  | _ :: _, 0 => ([], 0)
  | x :: rest, n + 1 =>
    let t := detailLoop detail rest n
    (detail x :: t.1, t.2 + 1)

/-- Modelled from the spec: the activities-with-details pipeline, given the
summaries the upstream returned for the one summary call. -/
def activitiesWithDetails {α β : Type} (summaries : List α) (detail : α → β) :
    PipelineTrace β :=
  let t := detailLoop detail summaries 20
  ⟨1, t.2, t.1⟩

/-- First non-null value of a candidate list (the reading of the `??` chain
that claim C10 states). -/
def firstNonNull : List (Option JVal) → Option JVal
  | [] => none
  | x :: rest =>
    match nonNull x with
    | some v => some v
    | none => firstNonNull rest

/-! ## Theorems -/

/-- Claim C1: if the upstream returns 429 on every attempt, the executor makes
exactly 3 calls (attempts 0,1,2), sleeping 2^attempt seconds after each (so
2^0 and 2^1 seconds fall between consecutive calls), and fails with
RetryExhausted naming the path; a 429 followed by a 200 returns the decoded
200 result after exactly 2 calls; any non-2xx status other than 429 fails
immediately as UpstreamError with the status and body after exactly 1 call. -/
theorem claim_C1_executor_retry (path : String)
    (f1 : Nat → FetchResponse) (h429 : ∀ a, (f1 a).status = 429)
    (f2 : Nat → FetchResponse) (h0 : (f2 0).status = 429) (h1 : (f2 1).status = 200)
    (f3 : Nat → FetchResponse) (hs : (f3 0).status ≠ 429)
    (hok : responseOk (f3 0).status = false) :
    intervalsApi path f1 = ⟨.retryExhausted path, 3, [1000, 2000, 4000]⟩ ∧
    intervalsApi path f2 = ⟨.ok (decodeSuccess (f2 1)), 2, [1000]⟩ ∧
    intervalsApi path f3 = ⟨.upstreamError (f3 0).status (f3 0).bodyText, 1, []⟩ := by
  refine ⟨?_, ?_, ?_⟩
  · simp [intervalsApi, intervalsApiLoop, h429]
  · simp [intervalsApi, intervalsApiLoop, h0, h1, responseOk]
  · simp [intervalsApi, intervalsApiLoop, hs, hok]

/-- Witness for claim C1 at concrete upstream behaviours. -/
theorem claim_C1_executor_retry_witness :
    intervalsApi "/athlete/0/events" (fun _ => ⟨429, none, ""⟩) =
      ⟨.retryExhausted "/athlete/0/events", 3, [1000, 2000, 4000]⟩ ∧
    intervalsApi "/athlete/0/events"
        (fun a => if a = 0 then ⟨429, none, ""⟩ else ⟨200, none, "[]"⟩) =
      ⟨.ok (.jsonDoc "[]"), 2, [1000]⟩ ∧
    intervalsApi "/athlete/0/events" (fun _ => ⟨500, none, "boom"⟩) =
      ⟨.upstreamError 500 "boom", 1, []⟩ :=
  claim_C1_executor_retry "/athlete/0/events"
    (fun _ => ⟨429, none, ""⟩) (fun _ => rfl)
    (fun a => if a = 0 then ⟨429, none, ""⟩ else ⟨200, none, "[]"⟩) rfl rfl
    (fun _ => ⟨500, none, "boom"⟩) (by decide) (by decide)

/-- Counterexample to claim C2 as stated: with secret s configured, the
presented bearer value is the secret followed by a space — a value other than
the secret — yet the gate lets the request proceed, because the gate trims the
bearer value before comparing. -/
theorem claim_C2_gate_counterexample :
    requireMcpApiKey (some "s") ⟨some "Bearer s ", none⟩ = .proceed ∧
      ("s " : String) ≠ "s" := by
  constructor
  · decide
  · decide

/-- Claim C2 as amended: with no configured secret (absent or empty) both
gates allow every request, whatever headers it carries; with a non-empty
secret the MCP gate allows a request exactly when the extracted key — the
bearer value trimmed, else the X-MCP-API-Key header trimmed — equals the
secret, so a bearer value that trims to the secret is accepted and every
other value (the empty string included) is rejected; the webhook gate
compares the trimmed bearer value, else the X-Webhook-Secret header
untrimmed; and a webhook request the gate rejects receives the 401 reply with
zero upstream calls made. -/
theorem claim_C2_gate_amended (secret : String) (hs : secret ≠ "")
    (req : McpRequest) (wreq : WebhookRequest)
    (upstream : UpstreamCall → UpstreamReply) :
    requireMcpApiKey none req = .proceed ∧
    requireMcpApiKey (some "") req = .proceed ∧
    (requireMcpApiKey (some secret) req = .proceed ↔
      getMcpKeyFromRequest req = some secret) ∧
    checkWebhookAuth none none wreq = true ∧
    (checkWebhookAuth (some secret) none wreq = true ↔
      (match wreq.authorization with
        | some a =>
          if jsStartsWith a "Bearer " then jsTrim (jsDrop a 7) = secret
          else wreq.xWebhookSecret = some secret
        | none => wreq.xWebhookSecret = some secret)) ∧
    (checkWebhookAuth (some secret) none wreq = false →
      (webhookPOST (some "k") none (some secret) none wreq upstream).1.status = 401 ∧
      (webhookPOST (some "k") none (some secret) none wreq upstream).2 = []) := by
  refine ⟨rfl, rfl, ?_, rfl, ?_, ?_⟩
  · simp only [requireMcpApiKey, hs, if_false, if_neg hs]
    cases hk : getMcpKeyFromRequest req with
    | none => simp
    | some sent =>
      by_cases hsent : sent = secret
      · subst hsent; simp [hs]
      · simp [hsent]
  · obtain ⟨auth, xsec, body⟩ := wreq
    simp only [checkWebhookAuth, jsOrStr, if_neg hs]
    cases auth with
    | none => simp
    | some a =>
      by_cases hb : jsStartsWith a "Bearer " = true <;> simp [hb]
  · intro h
    simp [webhookPOST, h]

/-- Witness for claim C2 as amended, at secret s: a request whose bearer value
is exactly the secret proceeds, and a webhook request presenting the secret in
the dedicated header is allowed. -/
theorem claim_C2_gate_amended_witness :
    requireMcpApiKey none ⟨some "Bearer s", none⟩ = .proceed ∧
    requireMcpApiKey (some "") ⟨some "Bearer s", none⟩ = .proceed ∧
    (requireMcpApiKey (some "s") ⟨some "Bearer s", none⟩ = .proceed ↔
      getMcpKeyFromRequest ⟨some "Bearer s", none⟩ = some "s") ∧
    checkWebhookAuth none none ⟨none, some "s", .jnull⟩ = true ∧
    (checkWebhookAuth (some "s") none ⟨none, some "s", .jnull⟩ = true ↔
      (some "s" : Option String) = some "s") ∧
    (checkWebhookAuth (some "s") none ⟨none, some "s", .jnull⟩ = false →
      (webhookPOST (some "k") none (some "s") none ⟨none, some "s", .jnull⟩
        (fun _ => ⟨200, "", .jnull⟩)).1.status = 401 ∧
      (webhookPOST (some "k") none (some "s") none ⟨none, some "s", .jnull⟩
        (fun _ => ⟨200, "", .jnull⟩)).2 = []) :=
  claim_C2_gate_amended "s" (by decide) ⟨some "Bearer s", none⟩
    ⟨none, some "s", .jnull⟩ (fun _ => ⟨200, "", .jnull⟩)

/-- A digit character is not whitespace. -/
theorem ws_false_of_digit {c : Char} (h : c.isDigit = true) :
    c.isWhitespace = false := by
  simp only [Char.isDigit, Bool.and_eq_true, decide_eq_true_eq] at h
  obtain ⟨h1, h2⟩ := h
  simp only [Char.isWhitespace, Bool.or_eq_false_iff, decide_eq_false_iff_not]
  refine ⟨⟨⟨?_, ?_⟩, ?_⟩, ?_⟩ <;> rintro rfl <;> revert h1 <;> decide

/-- dropWhile is the identity on a list of elements the predicate rejects. -/
theorem dropWhile_eq_self_of {p : Char → Bool} {cs : List Char}
    (h : ∀ c ∈ cs, p c = false) : cs.dropWhile p = cs := by
  cases cs with
  | nil => rfl
  | cons c rest =>
    rw [List.dropWhile_cons, h c (List.mem_cons_self c rest)]
    simp

/-- Trimming is the identity on whitespace-free character lists. -/
theorem trimChars_eq_self {cs : List Char} (h : ∀ c ∈ cs, c.isWhitespace = false) :
    trimChars cs = cs := by
  unfold trimChars
  rw [dropWhile_eq_self_of h, dropWhile_eq_self_of, List.reverse_reverse]
  intro c hc
  exact h c (List.mem_reverse.mp hc)

/-- A character list of date shape carries no whitespace. -/
theorem dateShape_no_ws {cs : List Char} (h : dateShape cs = true) :
    ∀ c ∈ cs, c.isWhitespace = false := by
  unfold dateShape at h
  split at h
  · next a b c d e f g h10 =>
    simp only [Bool.and_eq_true] at h
    obtain ⟨⟨⟨⟨⟨⟨⟨h1, h2⟩, h3⟩, h4⟩, h5⟩, h6⟩, h7⟩, h8⟩ := h
    intro x hx
    simp only [List.mem_cons, List.not_mem_nil, or_false] at hx
    rcases hx with rfl | rfl | rfl | rfl | rfl | rfl | rfl | rfl | rfl | rfl
    · exact ws_false_of_digit h1
    · exact ws_false_of_digit h2
    · exact ws_false_of_digit h3
    · exact ws_false_of_digit h4
    · decide
    · exact ws_false_of_digit h5
    · exact ws_false_of_digit h6
    · decide
    · exact ws_false_of_digit h7
    · exact ws_false_of_digit h8
  · exact absurd h (by simp)

/-- A ten-character date-shaped list cannot match the dateT prefix shape
(which needs an eleventh character T). -/
theorem dateTShape_false_of_dateShape {cs : List Char} (h : dateShape cs = true) :
    dateTShape cs = false := by
  unfold dateShape at h
  split at h
  · rfl
  · exact absurd h (by simp)

/-- A date-shaped list is nonempty. -/
theorem dateShape_ne_nil {cs : List Char} (h : dateShape cs = true) : cs ≠ [] := by
  intro hnil
  subst hnil
  exact absurd h (by decide)

/-- The webhook normalizer appends T00:00:00 to a bare yyyy-MM-dd value. -/
theorem normalizeStartDate_of_dateShape {cs : List Char} (h : dateShape cs = true) :
    normalizeStartDate (some (.jstr (String.mk cs))) =
      some (String.mk cs ++ "T00:00:00") := by
  have htrim : trimChars cs = cs := trimChars_eq_self (dateShape_no_ws h)
  have hne : ¬ (String.mk cs = "") := by
    simpa [String.ext_iff] using dateShape_ne_nil h
  simp only [normalizeStartDate, jsTrim, String.toList, htrim]
  rw [if_neg hne]
  rw [matchesDateTPrefix, String.toList, dateTShape_false_of_dateShape h]
  rw [matchesFullDate, String.toList, h]
  simp

/-- Claim C5, counterexample to the second half as stated: the string Tuesday
contains a T, yet the create_event normalization is not the identity on it —
it appends T00:00:00, because the code tests for a yyyy-MM-ddT prefix, not for
containing a T. -/
theorem claim_C5_counterexample :
    strIncludes "Tuesday" "T" = true ∧
      mcpNormalizeStartDate "Tuesday" ≠ "Tuesday" := by
  constructor <;> decide

/-- Claim C5 as amended: for every string matching yyyy-MM-dd both the webhook
normalizer and the create_event normalizer yield the string with T00:00:00
appended; the identity half holds not for every string containing a T but for
every string with a yyyy-MM-ddT prefix (the webhook normalizer additionally
requires the string to carry no surrounding whitespace, which it trims). -/
theorem claim_C5_amended (D : String) (hD : matchesFullDate D = true)
    (E : String) (hE : matchesDateTPrefix E = true) (hEt : jsTrim E = E) :
    normalizeStartDate (some (.jstr D)) = some (D ++ "T00:00:00") ∧
    mcpNormalizeStartDate D = D ++ "T00:00:00" ∧
    normalizeStartDate (some (.jstr E)) = some E ∧
    mcpNormalizeStartDate E = E := by
  obtain ⟨cs⟩ := D
  rw [matchesFullDate, String.toList] at hD
  have hEne : ¬ (E = "") := by
    intro hnil
    subst hnil
    exact absurd hE (by decide)
  refine ⟨normalizeStartDate_of_dateShape hD, ?_, ?_, ?_⟩
  · rw [mcpNormalizeStartDate, matchesDateTPrefix, String.toList,
      dateTShape_false_of_dateShape hD]
    simp
  · simp only [normalizeStartDate, hEt]
    rw [if_neg hEne, hE]
    simp
  · rw [mcpNormalizeStartDate, hE]
    simp

/-- Witness for claim C5 as amended at a concrete date and datetime. -/
theorem claim_C5_amended_witness :
    normalizeStartDate (some (.jstr "2026-02-02")) = some ("2026-02-02" ++ "T00:00:00") ∧
    mcpNormalizeStartDate "2026-02-02" = "2026-02-02" ++ "T00:00:00" ∧
    normalizeStartDate (some (.jstr "2026-02-02T00:00:00")) = some "2026-02-02T00:00:00" ∧
    mcpNormalizeStartDate "2026-02-02T00:00:00" = "2026-02-02T00:00:00" :=
  claim_C5_amended "2026-02-02" (by decide) "2026-02-02T00:00:00" (by decide) (by decide)

/-- Claim C8: the download adapter issues exactly one outbound request on
every path; a 429 — like every other non-2xx — surfaces immediately as an
upstream error carrying the status and body text with no retry; a 2xx returns
the full body base64-encoded together with the content type, defaulting an
absent (or empty) content-type header to application/octet-stream. -/
theorem claim_C8_download (baseUrl path : String) (resp : DownloadResponse) :
    (intervalsApiDownload baseUrl path resp).2 = [baseUrl ++ path] ∧
    (resp.status = 429 →
      (intervalsApiDownload baseUrl path resp).1 = .upstreamError 429 resp.errText) ∧
    (responseOk resp.status = false →
      (intervalsApiDownload baseUrl path resp).1 =
        .upstreamError resp.status resp.errText) ∧
    (responseOk resp.status = true →
      (intervalsApiDownload baseUrl path resp).1 =
        .file (base64Encode resp.bytes)
          (match resp.contentTypeHeader with
            | some ct => if ct = "" then "application/octet-stream" else ct
            | none => "application/octet-stream")) ∧
    (responseOk resp.status = true →
      resp.contentTypeHeader = none ∨ resp.contentTypeHeader = some "" →
      (intervalsApiDownload baseUrl path resp).1 =
        .file (base64Encode resp.bytes) "application/octet-stream") := by
  refine ⟨?_, ?_, ?_, ?_, ?_⟩
  · by_cases h : responseOk resp.status = false <;>
      simp [intervalsApiDownload, h]
  · intro h
    simp [intervalsApiDownload, h, responseOk]
  · intro h
    simp [intervalsApiDownload, h]
  · intro h
    simp [intervalsApiDownload, h]
  · intro h hct
    rcases hct with hct | hct <;> simp [intervalsApiDownload, h, hct]

/-- Witness for claim C8: a rate-limited download fails immediately with the
429 upstream error, and a successful download of the bytes of Man returns the
base64 text TWFu with the defaulted content type. -/
theorem claim_C8_download_witness :
    (intervalsApiDownload "https://intervals.icu/api/v1"
        "/athlete/0/events/7/download.zwo"
        ⟨429, none, [77, 97, 110], "limited"⟩).1 = .upstreamError 429 "limited" ∧
    (intervalsApiDownload "https://intervals.icu/api/v1"
        "/athlete/0/events/7/download.zwo"
        ⟨200, none, [77, 97, 110], ""⟩).1 = .file "TWFu" "application/octet-stream" :=
  ⟨(claim_C8_download "https://intervals.icu/api/v1"
      "/athlete/0/events/7/download.zwo" ⟨429, none, [77, 97, 110], "limited"⟩).2.1 rfl,
    (claim_C8_download "https://intervals.icu/api/v1"
      "/athlete/0/events/7/download.zwo" ⟨200, none, [77, 97, 110], ""⟩).2.2.2.2
      (by decide) (Or.inl rfl)⟩

/-- Lookup distributes over field-list concatenation, first match winning. -/
theorem getField_append (xs ys : List (String × JVal)) (k : String) :
    getField (xs ++ ys) k =
      match getField xs k with
      | some v => some v
      | none => getField ys k := by
  induction xs with
  | nil => rfl
  | cons kv rest ih =>
    obtain ⟨k1, v1⟩ := kv
    by_cases h : k1 = k <;> simp [getField, h, ih]

/-- Lookup in a truthiness-guarded string field. -/
theorem getField_truthyStrField (k j : String) (o : Option String) :
    getField (truthyStrField k o) j =
      if k = j then
        (match o with
          | some s => if s = "" then none else some (.jstr s)
          | none => none)
      else none := by
  cases o with
  | none => simp [truthyStrField, getField]
  | some s =>
    by_cases hs : s = "" <;> by_cases hk : k = j <;>
      simp [truthyStrField, getField, hs, hk]

/-- Lookup in the duration field block. -/
theorem getField_durationField (j : String) (o : Option Int) :
    getField (durationField o) j =
      if "moving_time" = j then o.map JVal.jnum else none := by
  cases o <;> by_cases hk : "moving_time" = j <;> simp [durationField, getField, hk]

/-- Lookup in the distance field block. -/
theorem getField_distanceField (j : String) (o : Option Int) :
    getField (distanceField o) j =
      if "distance" = j then
        (match o with
          | some d => if d = 0 then none else some (.jnum d)
          | none => none)
      else none := by
  cases o with
  | none => simp [distanceField, getField]
  | some d =>
    by_cases hd : d = 0 <;> by_cases hk : "distance" = j <;>
      simp [distanceField, getField, hd, hk]

/-- Lookup in a presence-guarded field. -/
theorem getField_optField (k j : String) (o : Option JVal) :
    getField (optField k o) j = if k = j then o else none := by
  cases o <;> by_cases hk : k = j <;> simp [optField, getField, hk]

/-- Claim C9: in the create_event tool payload, each of type, category, name,
description and workout_id is present exactly when its input is defined and
non-empty (an empty string is silently omitted); distance is present exactly
when defined and non-zero (zero is silently omitted); duration is present as
moving_time exactly when defined, so a zero duration is forwarded as
moving_time 0. -/
theorem claim_C9_create_event_truthiness (a : CreateEventArgs) :
    getField (createEventPayload a) "type" =
      (match a.type with
        | some s => if s = "" then none else some (.jstr s)
        | none => none) ∧
    getField (createEventPayload a) "category" =
      (match a.category with
        | some s => if s = "" then none else some (.jstr s)
        | none => none) ∧
    getField (createEventPayload a) "name" =
      (match a.name with
        | some s => if s = "" then none else some (.jstr s)
        | none => none) ∧
    getField (createEventPayload a) "description" =
      (match a.description with
        | some s => if s = "" then none else some (.jstr s)
        | none => none) ∧
    getField (createEventPayload a) "workout_id" =
      (match a.workout_id with
        | some s => if s = "" then none else some (.jstr s)
        | none => none) ∧
    getField (createEventPayload a) "moving_time" = a.duration.map JVal.jnum ∧
    getField (createEventPayload a) "distance" =
      (match a.distance with
        | some d => if d = 0 then none else some (.jnum d)
        | none => none) := by
  refine ⟨?_, ?_, ?_, ?_, ?_, ?_, ?_⟩
  · cases h : a.type with
    | none =>
      simp [createEventPayload, getField_append, getField_truthyStrField,
        getField_durationField, getField_distanceField, getField, h]
    | some s =>
      by_cases hs : s = "" <;>
        simp [createEventPayload, getField_append, getField_truthyStrField,
          getField_durationField, getField_distanceField, getField, h, hs]
  · cases h : a.category with
    | none =>
      simp [createEventPayload, getField_append, getField_truthyStrField,
        getField_durationField, getField_distanceField, getField, h]
    | some s =>
      by_cases hs : s = "" <;>
        simp [createEventPayload, getField_append, getField_truthyStrField,
          getField_durationField, getField_distanceField, getField, h, hs]
  · cases h : a.name with
    | none =>
      simp [createEventPayload, getField_append, getField_truthyStrField,
        getField_durationField, getField_distanceField, getField, h]
    | some s =>
      by_cases hs : s = "" <;>
        simp [createEventPayload, getField_append, getField_truthyStrField,
          getField_durationField, getField_distanceField, getField, h, hs]
  · cases h : a.description with
    | none =>
      simp [createEventPayload, getField_append, getField_truthyStrField,
        getField_durationField, getField_distanceField, getField, h]
    | some s =>
      by_cases hs : s = "" <;>
        simp [createEventPayload, getField_append, getField_truthyStrField,
          getField_durationField, getField_distanceField, getField, h, hs]
  · cases h : a.workout_id with
    | none =>
      simp [createEventPayload, getField_append, getField_truthyStrField,
        getField_durationField, getField_distanceField, getField, h]
    | some s =>
      by_cases hs : s = "" <;>
        simp [createEventPayload, getField_append, getField_truthyStrField,
          getField_durationField, getField_distanceField, getField, h, hs]
  · cases h : a.duration with
    | none =>
      simp [createEventPayload, getField_append, getField_truthyStrField,
        getField_durationField, getField_distanceField, getField, h]
    | some d =>
      simp [createEventPayload, getField_append, getField_truthyStrField,
        getField_durationField, getField_distanceField, getField, h]
  · cases h : a.distance with
    | none =>
      simp [createEventPayload, getField_append, getField_truthyStrField,
        getField_durationField, getField_distanceField, getField, h]
    | some d =>
      by_cases hd : d = 0 <;>
        simp [createEventPayload, getField_append, getField_truthyStrField,
          getField_durationField, getField_distanceField, getField, h, hd]

/-- Null-filtering distributes over the null-coalescing operator. -/
theorem nonNull_jsCoalesce (a b : Option JVal) :
    nonNull (jsCoalesce a b) =
      match nonNull a with
      | some v => some v
      | none => nonNull b := by
  cases a with
  | none => rfl
  | some v => cases v <;> rfl

/-- The two-step coalescing chain of the webhook computes the first non-null
candidate. -/
theorem firstNonNull_eq (a b c : Option JVal) :
    firstNonNull [a, b, c] = nonNull (jsCoalesce a (jsCoalesce b c)) := by
  simp only [firstNonNull, nonNull_jsCoalesce]
  cases nonNull a <;> simp
  cases nonNull b <;> simp
  cases nonNull c <;> simp

/-- Claim C10: in the webhook create payload, moving_time is derived from the
first non-null of the input fields moving_time, movingTime, duration — in that
precedence order — coerced with Number; when all three are null or absent, no
moving_time field is forwarded. -/
theorem claim_C10_moving_time_precedence (raw p : List (String × JVal))
    (hok : buildEventPayload raw = .ok p) :
    getField p "moving_time" =
      (firstNonNull [getField raw "moving_time", getField raw "movingTime",
        getField raw "duration"]).map jsToNumber := by
  rw [firstNonNull_eq]
  unfold buildEventPayload at hok
  split at hok
  · exact absurd hok (by simp)
  · injection hok with hok
    subst hok
    simp [getField_append, getField_optField, getField]
    cases nonNull (jsCoalesce (getField raw "moving_time")
        (jsCoalesce (getField raw "movingTime") (getField raw "duration"))) <;> rfl

/-- Witness for claim C10 at a concrete webhook body carrying only a duration
field: it is forwarded as moving_time. -/
theorem claim_C10_moving_time_precedence_witness :
    getField [("start_date_local", JVal.jstr "2026-02-02T00:00:00"),
        ("moving_time", JVal.jnum 3600)] "moving_time" =
      (firstNonNull [getField [("start_date_local", JVal.jstr "2026-02-02"),
          ("duration", JVal.jnum 3600)] "moving_time",
        getField [("start_date_local", JVal.jstr "2026-02-02"),
          ("duration", JVal.jnum 3600)] "movingTime",
        getField [("start_date_local", JVal.jstr "2026-02-02"),
          ("duration", JVal.jnum 3600)] "duration"]).map jsToNumber :=
  claim_C10_moving_time_precedence
    [("start_date_local", JVal.jstr "2026-02-02"), ("duration", JVal.jnum 3600)]
    [("start_date_local", JVal.jstr "2026-02-02T00:00:00"),
      ("moving_time", JVal.jnum 3600)] rfl

/-- Counterexample to claim C7 as stated: a create body whose workout_doc is
an array is not rejected — the build succeeds and the field is silently
dropped from the forwarded payload. -/
theorem claim_C7_workout_doc_counterexample :
    buildEventPayload
        [("start_date_local", JVal.jstr "2026-01-01"), ("workout_doc", JVal.jarr [])] =
      .ok [("start_date_local", JVal.jstr "2026-01-01T00:00:00")] := rfl

/-- Claim C7 as amended: when workout_doc is present but is an array or any
non-object value, the create flow does not reject the request — it silently
omits the field; workout_doc appears in the forwarded payload exactly when the
input value is a plain object, and then unchanged. -/
theorem claim_C7_workout_doc_amended (raw : List (String × JVal)) (start : String)
    (hstart : normalizeStartDate (jsCoalesce (getField raw "start_date_local")
      (getField raw "startDate")) = some start) :
    (buildEventPayload raw).map (fun p => getField p "workout_doc") =
      .ok (match getField raw "workout_doc" with
        | some (.jobj fs) => some (.jobj fs)
        | _ => none) := by
  unfold buildEventPayload
  rw [hstart]
  simp only [Except.map]
  simp [getField_append, getField_optField, getField]

/-- Witness for claim C7 as amended at the array-valued workout_doc input. -/
theorem claim_C7_workout_doc_amended_witness :
    (buildEventPayload
        [("start_date_local", JVal.jstr "2026-01-01"),
          ("workout_doc", JVal.jarr [])]).map (fun p => getField p "workout_doc") =
      .ok none :=
  claim_C7_workout_doc_amended
    [("start_date_local", JVal.jstr "2026-01-01"), ("workout_doc", JVal.jarr [])]
    "2026-01-01T00:00:00" rfl

/-- Claim C3 (the code returns 500 where the claim and spec say 400): a
webhook body classified as create that lacks both accepted start-date field
names makes zero upstream calls, but the reply is the catch-all 500 — the
missing-date error is thrown inside the guarded block and swallowed by the
catch-all — not a 400. -/
theorem claim_C3_missing_date (key : String) (hkey : key ≠ "")
    (fields : List (String × JVal))
    (hsd : getField fields "start_date_local" = none)
    (hsd2 : getField fields "startDate" = none)
    (actRaw : String)
    (hact : jsCoalesce (getField fields "action")
      (jsCoalesce (getField fields "_action") (some (.jstr "create"))) =
        some (.jstr actRaw))
    (hdel : jsToLower actRaw ≠ "delete") (hupd : jsToLower actRaw ≠ "update")
    (upstream : UpstreamCall → UpstreamReply) :
    (webhookPOST (some key) none none none ⟨none, none, .jobj fields⟩ upstream).1.status
        = 500 ∧
    (webhookPOST (some key) none none none ⟨none, none, .jobj fields⟩ upstream).2 = [] := by
  have hbuild : buildEventPayload fields = .error
      "Missing or invalid start_date_local (use yyyy-MM-dd or yyyy-MM-ddT00:00:00)" := by
    unfold buildEventPayload
    rw [hsd, hsd2]
    rfl
  constructor <;>
    simp [webhookPOST, checkWebhookAuth, jsOrStr, hact, hkey, webhookDispatch,
      hdel, hupd, webhookCreate, hbuild, webhook500]

/-- Witness for claim C3 at the empty-object webhook body. -/
theorem claim_C3_missing_date_witness :
    (webhookPOST (some "k") none none none ⟨none, none, .jobj []⟩
        (fun _ => ⟨200, "", .jnull⟩)).1.status = 500 ∧
    (webhookPOST (some "k") none none none ⟨none, none, .jobj []⟩
        (fun _ => ⟨200, "", .jnull⟩)).2 = [] :=
  claim_C3_missing_date "k" (by decide) [] rfl rfl "create" rfl
    (by decide) (by decide) (fun _ => ⟨200, "", .jnull⟩)

/-- The update branch always issues exactly one PUT whose body is the
routing-stripped field list (an empty remainder is still an object body). -/
theorem webhookUpdate_calls (baseUrlEvents : String) (eid : JVal)
    (fields : List (String × JVal)) (upstream : UpstreamCall → UpstreamReply) :
    (webhookUpdate baseUrlEvents eid fields upstream).2 =
      [⟨baseUrlEvents ++ "/" ++ jsToStrCore eid, "PUT",
        some (.jobj (stripRouting fields))⟩] := by
  have hpay : (if (stripRouting fields).length ≠ 0 then stripRouting fields else [])
      = stripRouting fields := by
    by_cases h : (stripRouting fields).length = 0
    · simp [h, List.length_eq_zero.mp h]
    · simp [h]
  simp only [webhookUpdate]
  rw [hpay]
  split <;> rfl

/-- Claim C6: for a webhook body classified as update (with a truthy event
id), the one forwarded call is a PUT whose body is the input object with
exactly the routing fields (action, _action, event_id, eventId, athlete_id,
athleteId) removed — a field survives stripping exactly when it is an input
field with a non-routing key — and a body made of routing fields only is
forwarded as the empty JSON object, not as an omitted body. -/
theorem claim_C6_update_strips_routing (key : String) (hkey : key ≠ "")
    (fields : List (String × JVal)) (actRaw : String)
    (hact : jsCoalesce (getField fields "action")
      (jsCoalesce (getField fields "_action") (some (.jstr "create"))) =
        some (.jstr actRaw))
    (hupd : jsToLower actRaw = "update")
    (heid : jsTruthyOpt (jsCoalesce (getField fields "event_id")
      (getField fields "eventId")) = true)
    (upstream : UpstreamCall → UpstreamReply) :
    ((webhookPOST (some key) none none none ⟨none, none, .jobj fields⟩ upstream).2.map
        (fun c => (c.method, c.body))) =
      [("PUT", some (.jobj (stripRouting fields)))] ∧
    (∀ k v, (k, v) ∈ stripRouting fields ↔
      ((k, v) ∈ fields ∧ routingKeys.contains k = false)) ∧
    ((∀ kv ∈ fields, routingKeys.contains kv.1 = true) → stripRouting fields = []) := by
  refine ⟨?_, ?_, ?_⟩
  · simp [webhookPOST, checkWebhookAuth, jsOrStr, hact, hkey, webhookDispatch,
      hupd, heid, webhookUpdate_calls]
  · intro k v
    simp [stripRouting, List.mem_filter]
  · intro h
    rw [stripRouting, List.filter_eq_nil_iff]
    intro kv hkv
    simpa using h kv hkv

/-- Witness for claim C6 at a body holding one routing field pair and one
payload field. -/
theorem claim_C6_update_strips_routing_witness :
    ((webhookPOST (some "k") none none none
        ⟨none, none, .jobj [("action", JVal.jstr "update"),
          ("event_id", JVal.jstr "90347858"), ("name", JVal.jstr "Updated")]⟩
        (fun _ => ⟨200, "", .jnull⟩)).2.map (fun c => (c.method, c.body))) =
      [("PUT", some (.jobj (stripRouting [("action", JVal.jstr "update"),
        ("event_id", JVal.jstr "90347858"), ("name", JVal.jstr "Updated")])))] ∧
    (∀ k v, (k, v) ∈ stripRouting [("action", JVal.jstr "update"),
        ("event_id", JVal.jstr "90347858"), ("name", JVal.jstr "Updated")] ↔
      ((k, v) ∈ [("action", JVal.jstr "update"),
        ("event_id", JVal.jstr "90347858"), ("name", JVal.jstr "Updated")] ∧
        routingKeys.contains k = false)) ∧
    ((∀ kv ∈ [("action", JVal.jstr "update"),
        ("event_id", JVal.jstr "90347858"), ("name", JVal.jstr "Updated")],
        routingKeys.contains kv.1 = true) →
      stripRouting [("action", JVal.jstr "update"),
        ("event_id", JVal.jstr "90347858"), ("name", JVal.jstr "Updated")] = []) :=
  claim_C6_update_strips_routing "k" (by decide)
    [("action", JVal.jstr "update"), ("event_id", JVal.jstr "90347858"),
      ("name", JVal.jstr "Updated")]
    "update" rfl (by decide) rfl (fun _ => ⟨200, "", .jnull⟩)

/-- The budgeted detail loop takes exactly the first `n` items and makes one
call per item taken. -/
theorem detailLoop_eq {α β : Type} (detail : α → β) :
    ∀ (l : List α) (n : Nat),
      detailLoop detail l n = ((l.take n).map detail, min l.length n) := by
  intro l
  induction l with
  | nil => intro n; cases n <;> simp [detailLoop]
  | cons x rest ih =>
    intro n
    cases n with
    | zero => simp [detailLoop]
    | succ m => simp [detailLoop, ih, Nat.succ_min_succ]

/-- Claim C4 (spec-modelled): every invocation of the activities-with-details
pipeline issues exactly 1 summary call and at most 20 detail calls — exactly
one per summary up to the cap — and summaries beyond the 20th are simply
omitted from the result. -/
theorem claim_C4_details_cap {α β : Type} (summaries : List α) (detail : α → β) :
    (activitiesWithDetails summaries detail).summaryCalls = 1 ∧
    (activitiesWithDetails summaries detail).detailCalls ≤ 20 ∧
    (activitiesWithDetails summaries detail).detailCalls = min summaries.length 20 ∧
    (activitiesWithDetails summaries detail).results = (summaries.take 20).map detail := by
  refine ⟨rfl, ?_, ?_, ?_⟩ <;> simp [activitiesWithDetails, detailLoop_eq]

/-- Witness for claim C9 at concrete inputs: an empty type string and a zero
distance are omitted, while a zero duration is forwarded as moving_time 0. -/
theorem claim_C9_create_event_truthiness_witness :
    getField (createEventPayload
        ⟨"2026-02-02", some "", some "Ride", none, none, none, some 0, some 0⟩)
        "type" = none ∧
    getField (createEventPayload
        ⟨"2026-02-02", some "", some "Ride", none, none, none, some 0, some 0⟩)
        "category" = some (.jstr "Ride") ∧
    getField (createEventPayload
        ⟨"2026-02-02", some "", some "Ride", none, none, none, some 0, some 0⟩)
        "name" = none ∧
    getField (createEventPayload
        ⟨"2026-02-02", some "", some "Ride", none, none, none, some 0, some 0⟩)
        "description" = none ∧
    getField (createEventPayload
        ⟨"2026-02-02", some "", some "Ride", none, none, none, some 0, some 0⟩)
        "workout_id" = none ∧
    getField (createEventPayload
        ⟨"2026-02-02", some "", some "Ride", none, none, none, some 0, some 0⟩)
        "moving_time" = some (.jnum 0) ∧
    getField (createEventPayload
        ⟨"2026-02-02", some "", some "Ride", none, none, none, some 0, some 0⟩)
        "distance" = none :=
  claim_C9_create_event_truthiness
    ⟨"2026-02-02", some "", some "Ride", none, none, none, some 0, some 0⟩

/-- Witness for claim C4 at 25 summaries: 20 detail calls, the last 5
summaries omitted. -/
theorem claim_C4_details_cap_witness :
    (activitiesWithDetails (List.range 25) (fun n => n)).summaryCalls = 1 ∧
    (activitiesWithDetails (List.range 25) (fun n => n)).detailCalls ≤ 20 ∧
    (activitiesWithDetails (List.range 25) (fun n => n)).detailCalls =
      min (List.range 25).length 20 ∧
    (activitiesWithDetails (List.range 25) (fun n => n)).results =
      ((List.range 25).take 20).map (fun n => n) :=
  claim_C4_details_cap (List.range 25) (fun n => n)

end IntervalsIcu
